import Mathlib

/-!
Verification of the source-trust scoring and filtering pipeline of the
kpmg-maquette market-research assistant, together with the frontend API
client behaviour visible in `src/services/apiService.js` and
`src/components/ChatBox.js`.

The scoring/filtering core (domain classifier, score assigner, result
filter, search orchestrator) lives in the Python backend
(`backend/services/tavily_service.py`, `backend/main.py`), which is not
part of the checked-in frontend sources; it is modelled here from the
specification (score table 95/90/85/60, thresholds GENERAL 70 / DATA 80,
suffix-based case-insensitive host matching, error taxonomy), which the
repository documentation (`QUICKSTART.md`, the installation guide)
corroborates.
-/

deriving instance DecidableEq for Except

namespace Kpmg

/-- Modelled from the spec: the four trust tiers of the Domain Classifier
(backend `tavily_service.py`, absent from the frontend sources). -/
inductive TrustTier where
  | GOVERNMENT
  | RESEARCH_FIRM
  | ECONOMIC_MEDIA
  | OTHER
deriving DecidableEq, Repr

/-- Modelled from the spec: the Score Assigner fixed table, exactly four
tiers: GOVERNMENT=95, RESEARCH_FIRM=90, ECONOMIC_MEDIA=85, OTHER=60
(documented in the installation guide section "Filtrage des Sources
Fiables"). -/
def scoreFor : TrustTier → Int
  | .GOVERNMENT => 95
  | .RESEARCH_FIRM => 90
  | .ECONOMIC_MEDIA => 85
  | .OTHER => 60

/-- One raw item returned by the external search provider. -/
structure SearchResult where
  url : String
  title : String
  snippet : String
deriving DecidableEq, Repr

/-- A SearchResult annotated by the pipeline with its tier and score. -/
structure ScoredResult where
  url : String
  title : String
  snippet : String
  trustTier : TrustTier
  reliabilityScore : Int
deriving DecidableEq, Repr

/-- Modelled from the spec: the Result Filter keeps a result iff
`reliabilityScore >= minScore`, preserving input order. -/
def filterResults (results : List ScoredResult) (minScore : Int) : List ScoredResult :=
  results.filter (fun r => decide (minScore ≤ r.reliabilityScore))

/-- Lower-case the characters of a string (host matching is
case-insensitive). -/
def lowerStr (s : String) : String :=
  String.mk (s.data.map Char.toLower)

/-- Modelled from the spec: a host matches a registry entry
`example.com` iff it equals `example.com` or ends with `.example.com`,
case-insensitively. -/
def hostMatches (host entry : String) : Bool :=
  let h := host.data.map Char.toLower
  let e := entry.data.map Char.toLower
  h == e || List.isSuffixOf ('.' :: e) h

/-- Modelled from the spec: the TrustRegistry, a static mapping from
tier to its list of matched domain suffixes (the `trusted_domains`
configuration of `tavily_service.py`). -/
structure TrustRegistry where
  government : List String
  researchFirm : List String
  economicMedia : List String
deriving Repr

/-- Scan for the first occurrence of a scheme separator and return the
characters that follow it. -/
def afterScheme : List Char → Option (List Char)
  | ':' :: '/' :: '/' :: rest => some rest
  | _ :: rest => afterScheme rest
  | [] => none

/-- A character ending the host portion of a URL. -/
def hostDelim (c : Char) : Bool :=
  c == '/' || c == ':' || c == '?' || c == '#'

/-- Modelled from the spec: extract the host of an absolute URL; `none`
when the URL has no parseable host. -/
def extractHost (url : String) : Option String :=
  match afterScheme url.data with
  | none => none
  | some rest =>
      let h := rest.takeWhile (fun c => !hostDelim c)
      if h.isEmpty then none else some (String.mk h)

/-- Modelled from the spec: classify a host with precedence
GOVERNMENT then RESEARCH_FIRM then ECONOMIC_MEDIA, first match wins; no
match in any list gives OTHER. -/
def classifyHost (reg : TrustRegistry) (host : String) : TrustTier :=
  if reg.government.any (fun e => hostMatches host e) then .GOVERNMENT
  else if reg.researchFirm.any (fun e => hostMatches host e) then .RESEARCH_FIRM
  else if reg.economicMedia.any (fun e => hostMatches host e) then .ECONOMIC_MEDIA
  else .OTHER

/-- Modelled from the spec: the whole-request and per-result error
taxonomy of the pipeline. -/
inductive SearchError where
  | InvalidQueryError
  | UnsupportedModeError
  | MalformedUrlError
  | SearchProviderError
deriving DecidableEq, Repr

/-- Modelled from the spec: the Domain Classifier; fails with
MalformedUrlError when the URL has no parseable host. -/
def classify (reg : TrustRegistry) (url : String) : Except SearchError TrustTier :=
  match extractHost url with
  | none => .error .MalformedUrlError
  | some h => .ok (classifyHost reg h)

/-- Modelled from the spec: the two search modes. -/
inductive SearchMode where
  | GENERAL
  | DATA
deriving DecidableEq, Repr

/-- Modelled from the spec: the wire-level mode strings accepted by the
backend (`"general"` and `"data"`, as sent by `apiService.js`); any
other value is unsupported. -/
def parseMode (mode : String) : Option SearchMode :=
  if mode = "general" then some .GENERAL
  else if mode = "data" then some .DATA
  else none

/-- Modelled from the spec: the minimum-score threshold bound to each
mode (QUICKSTART.md: Mode General filter score at least 70, Mode Data
filter score at least 80). -/
def thresholdFor : SearchMode → Int
  | .GENERAL => 70
  | .DATA => 80

/-- Whitespace characters removed by trimming. -/
def isWhite (c : Char) : Bool :=
  c == ' ' || c == '\t' || c == '\n' || c == '\r'

/-- Trim leading and trailing whitespace, modelling the JS
String.prototype.trim used on queries. -/
def strTrim (s : String) : String :=
  String.mk (((s.data.dropWhile isWhite).reverse.dropWhile isWhite).reverse)

/-- Modelled from the spec: the orchestrator classifies each raw result
and scores it, catching MalformedUrlError locally: a result whose URL
has no parseable host is degraded to the OTHER tier instead of failing
the search. -/
def scoreResult (reg : TrustRegistry) (r : SearchResult) : ScoredResult :=
  let tier :=
    match classify reg r.url with
    | .error _ => TrustTier.OTHER
    | .ok t => t
  { url := r.url, title := r.title, snippet := r.snippet,
    trustTier := tier, reliabilityScore := scoreFor tier }

/-- The orchestrator response: filtered results plus observability
metadata. -/
structure SearchResponse where
  results : List ScoredResult
  totalBeforeFilter : Nat
  mode : SearchMode
deriving DecidableEq, Repr

/-- Modelled from the spec: the Search Orchestrator. It validates the
query, resolves the mode, calls the provider once with
`(query, maxResults)` (`maxResults` defaults to 10 when absent), scores
each raw result in order and filters with the threshold of the mode.
The second component records the arguments of every provider
invocation, so an empty list means the provider was never called. -/
def search (reg : TrustRegistry)
    (provider : String → Nat → Except String (List SearchResult))
    (query : String) (mode : String) (maxResults : Option Nat) :
    Except SearchError SearchResponse × List (String × Nat) :=
  if strTrim query = "" then (.error .InvalidQueryError, [])
  else
    match parseMode mode with
    | none => (.error .UnsupportedModeError, [])
    | some m =>
      let n := maxResults.getD 10
      match provider query n with
      | .error _ => (.error .SearchProviderError, [(query, n)])
      | .ok raw =>
        (.ok { results := filterResults (raw.map (scoreResult reg)) (thresholdFor m),
               totalBeforeFilter := raw.length, mode := m }, [(query, n)])

/-! Frontend API client, embedded from `src/services/apiService.js` and
`src/components/ChatBox.js`. A `fetch` call either throws (network or
parse failure) or yields a response with an `ok` flag, an HTTP status
and a parsed body. -/

/-- Outcome of one `fetch` call as observed by the client code. -/
inductive FetchOutcome (α : Type) where
  | thrown (err : String)
  | response (ok : Bool) (status : Nat) (body : α)
deriving DecidableEq, Repr

/-- Result of the `/health` endpoint as used by `checkHealth`. -/
structure HealthStatus where
  status : String
deriving DecidableEq, Repr

/-- Whether an Except value is a success. -/
def isOkB {ε α : Type} : Except ε α → Bool
  | .ok _ => true
  | .error _ => false

/-- From apiService.js `checkHealth`: a non-ok response returns
`{ status: "offline" }`, an ok response returns the parsed body, and
the catch branch also returns `{ status: "offline" }` instead of
rethrowing. -/
def checkHealth (o : FetchOutcome HealthStatus) : Except String HealthStatus :=
  match o with
  | .thrown _ => .ok { status := "offline" }
  | .response ok _ body => if ok then .ok body else .ok { status := "offline" }

/-- From apiService.js: the error message thrown on a non-ok response. -/
def apiErrorMsg (status : Nat) : String :=
  "Erreur API: " ++ toString status

/-- From apiService.js `searchGeneral`: non-ok responses throw
`Erreur API: status`, thrown errors are logged and rethrown, ok
responses yield `data.results`. -/
def searchGeneralResp (o : FetchOutcome (List SearchResult)) :
    Except String (List SearchResult) :=
  match o with
  | .thrown err => .error err
  | .response ok status body => if ok then .ok body else .error (apiErrorMsg status)

/-- From apiService.js `searchData`: same rethrowing shape as
`searchGeneral`, on the data endpoint. -/
def searchDataResp (o : FetchOutcome (List SearchResult)) :
    Except String (List SearchResult) :=
  match o with
  | .thrown err => .error err
  | .response ok status body => if ok then .ok body else .error (apiErrorMsg status)

/-- From apiService.js `analyzeChatInput`: rethrows; ok responses yield
`data.response`. -/
def analyzeChatInputResp (o : FetchOutcome String) : Except String String :=
  match o with
  | .thrown err => .error err
  | .response ok status body => if ok then .ok body else .error (apiErrorMsg status)

/-- From apiService.js `generateAnalysis`: rethrows; ok responses yield
`data.analysis`. -/
def generateAnalysisResp (o : FetchOutcome String) : Except String String :=
  match o with
  | .thrown err => .error err
  | .response ok status body => if ok then .ok body else .error (apiErrorMsg status)

/-- From apiService.js `getMarketData`: rethrows; ok responses yield
`data.data` (opaque payload). -/
def getMarketDataResp (α : Type) (o : FetchOutcome α) : Except String α :=
  match o with
  | .thrown err => .error err
  | .response ok status body => if ok then .ok body else .error (apiErrorMsg status)

/-- From apiService.js `saveMarketData`: rethrows; ok responses yield
the parsed body (opaque payload). -/
def saveMarketDataResp (α : Type) (o : FetchOutcome α) : Except String α :=
  match o with
  | .thrown err => .error err
  | .response ok status body => if ok then .ok body else .error (apiErrorMsg status)

/-- The JSON body built by apiService.js for the search endpoints. -/
structure SearchRequestBody where
  query : String
  mode : String
  max_results : Nat
deriving DecidableEq, Repr

/-- From apiService.js `searchGeneral(query, maxResults = 10)`: the
request body carries the query, the literal mode "general" and
`max_results`, with the default parameter value 10 when the argument is
absent. -/
def searchGeneralBody (query : String) (maxResults : Option Nat) : SearchRequestBody :=
  { query := query, mode := "general", max_results := maxResults.getD 10 }

/-- From apiService.js `searchData(query, maxResults = 10)`: same body
with mode "data". -/
def searchDataBody (query : String) (maxResults : Option Nat) : SearchRequestBody :=
  { query := query, mode := "data", max_results := maxResults.getD 10 }

/-- From ChatBox.js `handleSend`: when the input trims to the empty
string the handler returns early and no API call is made; otherwise
`analyzeChatInput` is called with the untrimmed input. -/
def handleSendCall (inputValue : String) : Option String :=
  if strTrim inputValue = "" then none else some inputValue

/-! Concrete demonstration data for the closed theorems: a registry with
one entry per tier and a provider returning five results whose assigned
scores are 95, 60, 85, 90, 60 in order. -/

/-- A registry with a government entry matching the spec example
`www.economie.gouv.fr`, plus the suffix-boundary entry `example.com`. -/
def demoRegistry : TrustRegistry :=
  { government := ["example.com", "economie.gouv.fr"],
    researchFirm := ["kpmg.com"],
    economicMedia := ["lesechos.fr"] }

/-- Five raw results classifying under `demoRegistry` to the score
sequence 95, 60, 85, 90, 60. -/
def demoResults : List SearchResult :=
  [ { url := "https://www.economie.gouv.fr/ev", title := "a", snippet := "" },
    { url := "https://randomblog.net/post", title := "b", snippet := "" },
    { url := "https://www.lesechos.fr/ev", title := "c", snippet := "" },
    { url := "https://home.kpmg.com/report", title := "d", snippet := "" },
    { url := "https://another.org/page", title := "e", snippet := "" } ]

/-- A provider returning `demoResults` for every request. -/
def demoProvider : String → Nat → Except String (List SearchResult) :=
  fun _ _ => .ok demoResults

/-- A scored government result (score 95). -/
def sGov : ScoredResult :=
  { url := "https://www.economie.gouv.fr/ev", title := "a", snippet := "",
    trustTier := .GOVERNMENT, reliabilityScore := 95 }

/-- A scored media result (score 85). -/
def sMedia : ScoredResult :=
  { url := "https://www.lesechos.fr/ev", title := "c", snippet := "",
    trustTier := .ECONOMIC_MEDIA, reliabilityScore := 85 }

/-- A scored research-firm result (score 90). -/
def sResearch : ScoredResult :=
  { url := "https://home.kpmg.com/report", title := "d", snippet := "",
    trustTier := .RESEARCH_FIRM, reliabilityScore := 90 }

/-- A scored unlisted result (score 60). -/
def sOther : ScoredResult :=
  { url := "https://another.org/page", title := "e", snippet := "",
    trustTier := .OTHER, reliabilityScore := 60 }

/-- A raw result whose URL has no parseable host. -/
def malformedResult : SearchResult :=
  { url := "not a url", title := "m", snippet := "" }

/-- A provider returning one government result, one result with an
unparseable URL and one media result. -/
def demoProviderWithBadUrl : String → Nat → Except String (List SearchResult) :=
  fun _ _ => .ok
    [ { url := "https://www.economie.gouv.fr/ev", title := "a", snippet := "" },
      malformedResult,
      { url := "https://www.lesechos.fr/ev", title := "c", snippet := "" } ]

/-! Claim theorems. -/

/-- C1: for every finite list of ScoredResults and every integer
minScore, the Result Filter returns exactly the subsequence of elements
whose reliabilityScore is at least minScore, in their original relative
order; the boundary is inclusive, the empty input yields the empty
output, and a minScore outside the range 0 to 100 is accepted as-is
(the statement quantifies over all integers). -/
theorem C1_filter_exact (results : List ScoredResult) (minScore : Int) :
    (filterResults results minScore).Sublist results ∧
    (∀ r ∈ filterResults results minScore, minScore ≤ r.reliabilityScore) ∧
    (∀ r ∈ results, minScore ≤ r.reliabilityScore → r ∈ filterResults results minScore) ∧
    (∀ r : ScoredResult, (filterResults results minScore).count r =
        if minScore ≤ r.reliabilityScore then results.count r else 0) ∧
    filterResults [] minScore = [] := by
  refine ⟨List.filter_sublist results, ?_, ?_, ?_, rfl⟩
  · intro r hr
    exact of_decide_eq_true (List.mem_filter.mp hr).2
  · intro r hr h
    exact List.mem_filter.mpr ⟨hr, decide_eq_true h⟩
  · intro r
    by_cases h : minScore ≤ r.reliabilityScore
    · rw [if_pos h]
      exact List.count_filter (decide_eq_true h)
    · rw [if_neg h]
      refine List.count_eq_zero.mpr ?_
      intro hmem
      exact h (of_decide_eq_true (List.mem_filter.mp hmem).2)

/-- Witness for C1: the theorem applied to a concrete two-element list
and threshold 80 places the score-95 element in the output. -/
theorem C1_filter_exact_witness :
    sGov ∈ filterResults [sGov, sOther] 80 :=
  (C1_filter_exact [sGov, sOther] 80).2.2.1 sGov (by decide) (by decide)

/-- C2: scoreFor is total on the four-value TrustTier enum and returns
exactly the fixed score for each tier: GOVERNMENT 95, RESEARCH_FIRM 90,
ECONOMIC_MEDIA 85, OTHER 60; every value of the enum yields one of the
table values, with no error path. -/
theorem C2_scoreFor_table :
    scoreFor .GOVERNMENT = 95 ∧ scoreFor .RESEARCH_FIRM = 90 ∧
    scoreFor .ECONOMIC_MEDIA = 85 ∧ scoreFor .OTHER = 60 ∧
    (∀ t : TrustTier,
        scoreFor t = 95 ∨ scoreFor t = 90 ∨ scoreFor t = 85 ∨ scoreFor t = 60) := by
  refine ⟨rfl, rfl, rfl, rfl, ?_⟩
  intro t
  cases t <;> simp [scoreFor]

/-- C3: the threshold bound to each SearchMode used by the
orchestrator's filtering step is exactly 70 for GENERAL and 80 for
DATA, so the GENERAL threshold is at most the DATA threshold; a mode
value outside the two supported modes fails (on an otherwise valid
query) with UnsupportedModeError. -/
theorem C3_thresholds :
    thresholdFor .GENERAL = 70 ∧ thresholdFor .DATA = 80 ∧
    thresholdFor .GENERAL ≤ thresholdFor .DATA ∧
    (∀ reg provider query mode maxResults, strTrim query ≠ "" → parseMode mode = none →
        search reg provider query mode maxResults = (.error .UnsupportedModeError, [])) := by
  refine ⟨rfl, rfl, by decide, ?_⟩
  intro reg provider query mode maxResults hq hm
  simp [search, hq, hm]

/-- Witness for C3: an unsupported mode string on a valid query. -/
theorem C3_thresholds_witness :
    search demoRegistry demoProvider "ev market" "turbo" (some 5) =
      (.error .UnsupportedModeError, []) :=
  C3_thresholds.2.2.2 demoRegistry demoProvider "ev market" "turbo" (some 5)
    (by decide) (by decide)

/-- C4: host matching is suffix-based and case-insensitive: a host
matches an entry iff (after lowering) it equals the entry or ends with
a dot followed by the entry; a URL whose host matches a government
entry classifies GOVERNMENT, a host matching no list in any tier
classifies OTHER, and notexample.com does not match the entry
example.com. -/
theorem C4_classify_matching :
    (∀ host entry : String, hostMatches host entry = true ↔
        (lowerStr host = lowerStr entry ∨
          ('.' :: (lowerStr entry).data) <:+ (lowerStr host).data)) ∧
    (∀ (reg : TrustRegistry) (url host : String), extractHost url = some host →
        reg.government.any (fun e => hostMatches host e) = true →
        classify reg url = .ok .GOVERNMENT) ∧
    (∀ (reg : TrustRegistry) (url host : String), extractHost url = some host →
        reg.government.all (fun e => !hostMatches host e) = true →
        reg.researchFirm.all (fun e => !hostMatches host e) = true →
        reg.economicMedia.all (fun e => !hostMatches host e) = true →
        classify reg url = .ok .OTHER) ∧
    hostMatches "notexample.com" "example.com" = false ∧
    hostMatches "SUB.Example.COM" "example.com" = true ∧
    classify demoRegistry "https://notexample.com/x" = .ok .OTHER ∧
    classify demoRegistry "https://www.economie.gouv.fr" = .ok .GOVERNMENT := by
  refine ⟨?_, ?_, ?_, by decide, by decide, by decide, by decide⟩
  · intro host entry
    simp only [hostMatches, Bool.or_eq_true, beq_iff_eq, List.isSuffixOf_iff_suffix,
      lowerStr, String.ext_iff]
  · intro reg url host h hg
    simp [classify, h, classifyHost, hg]
  · intro reg url host h hg hr he
    have hg2 : reg.government.any (fun e => hostMatches host e) = false := by
      rw [List.any_eq_false]
      intro e hme
      simpa using List.all_eq_true.mp hg e hme
    have hr2 : reg.researchFirm.any (fun e => hostMatches host e) = false := by
      rw [List.any_eq_false]
      intro e hme
      simpa using List.all_eq_true.mp hr e hme
    have he2 : reg.economicMedia.any (fun e => hostMatches host e) = false := by
      rw [List.any_eq_false]
      intro e hme
      simpa using List.all_eq_true.mp he e hme
    simp [classify, h, classifyHost, hg2, hr2, he2]

/-- Witness for C4: the theorem applied to the spec example, a URL
whose host is a subdomain of the government entry economie.gouv.fr. -/
theorem C4_classify_matching_witness :
    classify demoRegistry "https://www.economie.gouv.fr/ev" = .ok .GOVERNMENT :=
  C4_classify_matching.2.1 demoRegistry "https://www.economie.gouv.fr/ev"
    "www.economie.gouv.fr" (by decide) (by decide)

/-- C5: search on query ev market in DATA mode with maxResults 5
against a provider returning five results whose assigned scores are
95, 60, 85, 90, 60 in order returns exactly the results scoring at
least 80 (the three results scored 95, 85, 90) in the original
relative order, with totalBeforeFilter 5 and the mode echoed back. -/
theorem C5_data_search_example :
    (search demoRegistry demoProvider "ev market" "data" (some 5)).1 =
      .ok { results := [sGov, sMedia, sResearch], totalBeforeFilter := 5, mode := .DATA } ∧
    [sGov, sMedia, sResearch] =
      filterResults (demoResults.map (scoreResult demoRegistry)) 80 := by
  exact ⟨by decide, by decide⟩

/-- C6: for every query that is empty after trimming, search fails
with InvalidQueryError and the provider is never invoked (the recorded
provider-call list is empty); the ChatBox handler likewise issues no
API call on input that trims to the empty string. -/
theorem C6_invalid_query :
    (∀ reg provider mode maxResults query, strTrim query = "" →
        search reg provider query mode maxResults = (.error .InvalidQueryError, [])) ∧
    (∀ s, strTrim s = "" → handleSendCall s = none) := by
  constructor
  · intro reg provider mode maxResults query hq
    simp [search, hq]
  · intro s hs
    simp [handleSendCall, hs]

/-- Witness for C6: a whitespace-only query and an empty chat input. -/
theorem C6_invalid_query_witness :
    search demoRegistry demoProvider "   " "general" none =
      (.error .InvalidQueryError, []) ∧
    handleSendCall "" = none :=
  ⟨C6_invalid_query.1 demoRegistry demoProvider "general" none "   " (by decide),
   C6_invalid_query.2 "" (by decide)⟩

/-- C7: a result whose URL has no parseable host is degraded locally to
the OTHER tier with score 60 instead of failing the search; the
orchestrator never surfaces MalformedUrlError; with one malformed URL
among otherwise valid results the search succeeds, processes the other
results normally and filters the degraded result like any OTHER-tier
result; a whole-request provider failure propagates as
SearchProviderError with no partial results. -/
theorem C7_malformed_url_isolation :
    (∀ (reg : TrustRegistry) (r : SearchResult), extractHost r.url = none →
        scoreResult reg r = { url := r.url, title := r.title, snippet := r.snippet,
                              trustTier := .OTHER, reliabilityScore := 60 }) ∧
    (∀ reg provider query mode maxResults,
        (search reg provider query mode maxResults).1 ≠ .error .MalformedUrlError) ∧
    (search demoRegistry demoProviderWithBadUrl "ev market" "general" (some 3)).1 =
      .ok { results := [sGov, sMedia], totalBeforeFilter := 3, mode := .GENERAL } ∧
    (∀ reg query mode m maxResults, parseMode mode = some m → strTrim query ≠ "" →
        search reg (fun _ _ => .error "boom") query mode maxResults =
          (.error .SearchProviderError, [(query, maxResults.getD 10)])) := by
  refine ⟨?_, ?_, by decide, ?_⟩
  · intro reg r h
    simp [scoreResult, classify, h, scoreFor]
  · intro reg provider query mode maxResults
    by_cases hq : strTrim query = ""
    · simp [search, hq]
    · cases hm : parseMode mode with
      | none => simp [search, hq, hm]
      | some m =>
        cases hp : provider query (maxResults.getD 10) with
        | error e => simp [search, hq, hm, hp]
        | ok raw => simp [search, hq, hm, hp]
  · intro reg query mode m maxResults hm hq
    simp [search, hq, hm]

/-- Witness for C7: the malformed demo result is degraded to OTHER with
score 60. -/
theorem C7_malformed_url_isolation_witness :
    scoreResult demoRegistry malformedResult =
      { url := "not a url", title := "m", snippet := "",
        trustTier := .OTHER, reliabilityScore := 60 } :=
  C7_malformed_url_isolation.1 demoRegistry malformedResult (by decide)

/-- C8: the Result Filter is idempotent: filtering an already filtered
list with the same threshold returns the same list unchanged, for every
list and every threshold. -/
theorem C8_filter_idempotent (results : List ScoredResult) (minScore : Int) :
    filterResults (filterResults results minScore) minScore =
      filterResults results minScore := by
  simp [filterResults, List.filter_filter]

/-- C9: when the maxResults argument is absent the value 10 is used,
both by the orchestrator and by the apiService request builders (whose
JS default parameter is 10); for a valid request with a positive
maxResults the provider is called exactly once with the pair
(query, maxResults). -/
theorem C9_maxresults_default :
    (∀ reg provider query mode,
        search reg provider query mode none = search reg provider query mode (some 10)) ∧
    (∀ query, (searchGeneralBody query none).max_results = 10 ∧
        (searchDataBody query none).max_results = 10 ∧
        (searchGeneralBody query none).query = query ∧
        (searchGeneralBody query none).mode = "general") ∧
    (∀ reg provider query mode m n, parseMode mode = some m → strTrim query ≠ "" →
        0 < n → (search reg provider query mode (some n)).2 = [(query, n)]) ∧
    (∀ reg provider query mode m, parseMode mode = some m → strTrim query ≠ "" →
        (search reg provider query mode none).2 = [(query, 10)]) := by
  refine ⟨fun reg provider query mode => rfl,
    fun query => ⟨rfl, rfl, rfl, rfl⟩, ?_, ?_⟩
  · intro reg provider query mode m n hm hq hn
    cases hp : provider query n with
    | error e => simp [search, hq, hm, hp]
    | ok raw => simp [search, hq, hm, hp]
  · intro reg provider query mode m hm hq
    cases hp : provider query 10 with
    | error e => simp [search, hq, hm, hp]
    | ok raw => simp [search, hq, hm, hp]

/-- Witness for C9: default and explicit maxResults on concrete calls. -/
theorem C9_maxresults_default_witness :
    search demoRegistry demoProvider "ev market" "general" none =
      search demoRegistry demoProvider "ev market" "general" (some 10) ∧
    (search demoRegistry demoProvider "ev market" "data" (some 5)).2 =
      [("ev market", 5)] :=
  ⟨C9_maxresults_default.1 demoRegistry demoProvider "ev market" "general",
   C9_maxresults_default.2.2.1 demoRegistry demoProvider "ev market" "data" .DATA 5
     (by decide) (by decide) (by decide)⟩

/-- C10: checkHealth never throws: a thrown network error and a non-ok
HTTP response both yield the returned value with status offline, and an
ok response yields the parsed body; every other apiService operation
instead rethrows the thrown error and throws an Erreur API message on a
non-ok response. -/
theorem C10_checkHealth_never_throws :
    (∀ o : FetchOutcome HealthStatus, isOkB (checkHealth o) = true) ∧
    (∀ e, checkHealth (.thrown e) = .ok { status := "offline" }) ∧
    (∀ s b, checkHealth (.response false s b) = .ok { status := "offline" }) ∧
    (∀ s b, checkHealth (.response true s b) = .ok b) ∧
    (∀ e, searchGeneralResp (.thrown e) = .error e) ∧
    (∀ s b, searchGeneralResp (.response false s b) = .error (apiErrorMsg s)) ∧
    (∀ e, searchDataResp (.thrown e) = .error e) ∧
    (∀ s b, searchDataResp (.response false s b) = .error (apiErrorMsg s)) ∧
    (∀ e, analyzeChatInputResp (.thrown e) = .error e) ∧
    (∀ s b, analyzeChatInputResp (.response false s b) = .error (apiErrorMsg s)) ∧
    (∀ e, generateAnalysisResp (.thrown e) = .error e) ∧
    (∀ s b, generateAnalysisResp (.response false s b) = .error (apiErrorMsg s)) ∧
    (∀ (α : Type) (e : String), getMarketDataResp α (.thrown e) = .error e) ∧
    (∀ (α : Type) (s : Nat) (b : α),
        getMarketDataResp α (.response false s b) = .error (apiErrorMsg s)) ∧
    (∀ (α : Type) (e : String), saveMarketDataResp α (.thrown e) = .error e) ∧
    (∀ (α : Type) (s : Nat) (b : α),
        saveMarketDataResp α (.response false s b) = .error (apiErrorMsg s)) := by
  refine ⟨?_, fun e => rfl, fun s b => rfl, fun s b => rfl, fun e => rfl,
    fun s b => rfl, fun e => rfl, fun s b => rfl, fun e => rfl, fun s b => rfl,
    fun e => rfl, fun s b => rfl, fun α e => rfl, fun α s b => rfl,
    fun α e => rfl, fun α s b => rfl⟩
  intro o
  cases o with
  | thrown e => rfl
  | response ok s b => cases ok <;> rfl

end Kpmg
